import Mathlib

/-!
# Shallow embedding of the Mario platformer physics engine

This file embeds the physics/collision core of `app/game_service.py`
(`CollisionBox`, `GamePhysics.update_player_physics`) and the data model of
`app/models.py` in Lean 4, and settles the frozen claims about it.

Modelling choices:
* Python `Decimal` values are modelled as exact rationals (`ℚ`).  All inputs
  exercised by the theorems below stay well within `Decimal`'s 28-significant-
  digit context, so no context rounding is observable at the claims' level.
* Python's `<`, `>`, `min`, `max`, `abs` on `Decimal` are modelled with the
  executable comparator `Rat.blt` (`qlt`, `qmin`, `qmax`, `qabs` below), which
  is definitionally the order on `ℚ`; bridge lemmas relate them to `<`, `≤`,
  `min`, `max`, `|·|` for abstract reasoning.
* `int` fields are modelled as `Int`.
* The key-state dictionary `Dict[str, bool]` with `.get(k, False)` is modelled
  as a total function `String → Bool`.
* The two scaled time quantities that the source derives from the float
  `delta_time` — `Decimal(str(delta_time))` and `Decimal(str(delta_time * 10))`
  — are passed as two explicit rational parameters `dtD` and `dt10D`.
  For the default `delta_time = 1/60`, `str(1/60) = "0.016666666666666666"`
  and `str((1/60)*10) = "0.16666666666666666"`, giving the concrete rationals
  `dt60` and `dt60x10` defined below.
* The source mutates the session object in place and returns it; the embedding
  is the corresponding state transformer `GameSession → GameSession`.
-/

namespace Mario

/-- Python `a < b` on `Decimal`, as the executable rational comparator. -/
def qlt (a b : ℚ) : Bool := a.blt b

/-- Python two-argument `min(a, b)`: returns `b` exactly when `b < a`. -/
def qmin (a b : ℚ) : ℚ := if b.blt a then b else a

/-- Python two-argument `max(a, b)`: returns `b` exactly when `a < b`. -/
def qmax (a b : ℚ) : ℚ := if a.blt b then b else a

/-- Python `abs` on `Decimal`. -/
def qabs (a : ℚ) : ℚ := if a.blt 0 then -a else a

/-- AABB from `CollisionBox.__init__` in `app/game_service.py`. -/
structure CollisionBox where
  x : ℚ
  y : ℚ
  width : ℚ
  height : ℚ
deriving DecidableEq, Repr

/-- Embeds `CollisionBox.intersects` (game_service.py lines 30-37):
`self.x < other.x + other.width and self.x + self.width > other.x and
self.y < other.y + other.height and self.y + self.height > other.y`. -/
def CollisionBox.intersects (a other : CollisionBox) : Bool :=
  qlt a.x (other.x + other.width) &&
  qlt other.x (a.x + a.width) &&
  qlt a.y (other.y + other.height) &&
  qlt other.y (a.y + a.height)

/-- Embeds `CollisionBox.get_overlap` (game_service.py lines 39-43). -/
def CollisionBox.get_overlap (a other : CollisionBox) : ℚ × ℚ :=
  (qmin (a.x + a.width) (other.x + other.width) - qmax a.x other.x,
   qmin (a.y + a.height) (other.y + other.height) - qmax a.y other.y)

/-- The `PlayerState` enum from `app/models.py`. -/
inductive PlayerState where
  | idle
  | running
  | jumping
  | falling
  | dead
deriving DecidableEq, Repr

/-- The fields of `GameObject` (models.py) read by the physics engine. -/
structure GameObject where
  id : Int
  x_position : ℚ
  y_position : ℚ
  width : ℚ
  height : ℚ
  is_solid : Bool
  is_collectible : Bool
  points_value : Int
deriving DecidableEq, Repr

/-- The fields of `GameLevel` (models.py) read by the physics engine.
`width` and `height` are integer-valued in the schema; they only ever enter
`Decimal` arithmetic, so they are carried here as rationals. -/
structure GameLevel where
  width : ℚ
  height : ℚ
  gravity : ℚ
  player_spawn_x : ℚ
  player_spawn_y : ℚ
deriving DecidableEq, Repr

/-- The fields of `GameConfig` (models.py) read by the physics engine. -/
structure GameConfig where
  player_speed : ℚ
  jump_strength : ℚ
  max_velocity_x : ℚ
  max_velocity_y : ℚ
  friction : ℚ
  air_resistance : ℚ
deriving DecidableEq, Repr

/-- The fields of `GameSession` (models.py) read or written by the physics
engine, together with the `session.level` relationship it dereferences. -/
structure GameSession where
  current_score : Int
  coins_collected : Int
  lives_remaining : Int
  time_remaining : Int
  player_x : ℚ
  player_y : ℚ
  player_velocity_x : ℚ
  player_velocity_y : ℚ
  player_state : PlayerState
  is_facing_right : Bool
  is_on_ground : Bool
  is_completed : Bool
  is_game_over : Bool
  collected_objects : List Int
  level : GameLevel
deriving DecidableEq, Repr

/-- Horizontal-input phase of `update_player_physics`
(game_service.py lines 355-382): movement keys, clamped acceleration,
friction / air resistance with the `|vx| < 0.1` dead-stop. -/
def horiz_vel (config : GameConfig) (keys : String → Bool) (dtD : ℚ)
    (s : GameSession) : GameSession :=
  let move_left := keys "ArrowLeft" || keys "a"
  let move_right := keys "ArrowRight" || keys "d"
  if move_left then
    { s with
      player_velocity_x :=
        qmax (s.player_velocity_x - config.player_speed * dtD) (-config.max_velocity_x),
      is_facing_right := false }
  else if move_right then
    { s with
      player_velocity_x :=
        qmin (s.player_velocity_x + config.player_speed * dtD) config.max_velocity_x,
      is_facing_right := true }
  else
    let v :=
      if s.is_on_ground then s.player_velocity_x * config.friction
      else s.player_velocity_x * config.air_resistance
    let v := if qlt (qabs v) (1 / 10) then 0 else v
    { s with player_velocity_x := v }

/-- Jump phase (game_service.py lines 384-387). -/
def jump_step (config : GameConfig) (keys : String → Bool)
    (s : GameSession) : GameSession :=
  let jump := keys " " || keys "ArrowUp" || keys "w"
  if jump && s.is_on_ground then
    { s with player_velocity_y := -config.jump_strength, is_on_ground := false }
  else s

/-- Gravity phase (game_service.py lines 389-393). -/
def gravity_step (config : GameConfig) (dtD : ℚ) (s : GameSession) : GameSession :=
  if !s.is_on_ground then
    { s with
      player_velocity_y :=
        qmin (s.player_velocity_y + s.level.gravity * dtD) config.max_velocity_y }
  else s

/-- Input, jump and gravity phases combined: the session state just before the
tentative position is computed (game_service.py lines 355-393). -/
def pre_physics (config : GameConfig) (keys : String → Bool) (dtD : ℚ)
    (s : GameSession) : GameSession :=
  gravity_step config dtD (jump_step config keys (horiz_vel config keys dtD s))

/-- Mutable state threaded through the per-object collision loop: working
tentative position, working velocities, the ground flag and the queue of
newly hit collectibles (game_service.py lines 395-435). -/
structure CollState where
  new_x : ℚ
  new_y : ℚ
  vx : ℚ
  vy : ℚ
  on_ground : Bool
  collectibles : List GameObject
deriving DecidableEq, Repr

/-- The AABB of a level object (game_service.py line 409). -/
def obj_box (obj : GameObject) : CollisionBox :=
  ⟨obj.x_position, obj.y_position, obj.width, obj.height⟩

/-- One iteration of the collision loop body (game_service.py lines 408-435).
`player_box` is the box built once from the tentative position and never
rebuilt; `collected` is the session's collected-id list, which the loop only
reads. -/
def collide_step (collected : List Int) (player_box : CollisionBox)
    (st : CollState) (obj : GameObject) : CollState :=
  if player_box.intersects (obj_box obj) then
    if obj.is_collectible && !(collected.contains obj.id) then
      { st with collectibles := st.collectibles ++ [obj] }
    else if obj.is_solid then
      let ov := player_box.get_overlap (obj_box obj)
      if qlt ov.1 ov.2 then
        if qlt 0 st.vx then { st with new_x := obj.x_position - 24, vx := 0 }
        else { st with new_x := obj.x_position + obj.width, vx := 0 }
      else
        if qlt 0 st.vy then
          { st with new_y := obj.y_position - 32, vy := 0, on_ground := true }
        else { st with new_y := obj.y_position + obj.height, vy := 0 }
    else st
  else st

/-- The whole collision pass: tentative position, the player box, the
`is_on_ground = False` reset and the fold of `collide_step` over the level
objects in storage order (game_service.py lines 395-435). -/
def collision_pass (config : GameConfig) (keys : String → Bool) (dtD dt10D : ℚ)
    (s : GameSession) (level_objects : List GameObject) : CollState :=
  let s3 := pre_physics config keys dtD s
  let nx := s3.player_x + s3.player_velocity_x * dt10D
  let ny := s3.player_y + s3.player_velocity_y * dt10D
  level_objects.foldl (collide_step s.collected_objects ⟨nx, ny, 24, 32⟩)
    { new_x := nx, new_y := ny, vx := s3.player_velocity_x,
      vy := s3.player_velocity_y, on_ground := false, collectibles := [] }

/-- Accumulator of the collectible-crediting loop
(game_service.py lines 437-442). -/
structure CollectAcc where
  collected : List Int
  coins : Int
  score : Int
deriving DecidableEq, Repr

/-- One iteration of the collectible-crediting loop
(game_service.py lines 438-442). -/
def collect_step (acc : CollectAcc) (obj : GameObject) : CollectAcc :=
  if acc.collected.contains obj.id then acc
  else
    { collected := acc.collected ++ [obj.id],
      coins := acc.coins + 1,
      score := acc.score + obj.points_value }

/-- Player-state derivation (game_service.py lines 444-454). -/
def derive_state (on_ground : Bool) (vx vy : ℚ) : PlayerState :=
  if on_ground then
    if qlt (1 / 10) (qabs vx) then PlayerState.running else PlayerState.idle
  else
    if qlt vy 0 then PlayerState.jumping else PlayerState.falling

/-- The tail of `update_player_physics` after the collision pass
(game_service.py lines 437-476): collectible crediting, player-state
derivation, the fall-out-of-world check with its life/respawn logic, the
horizontal clamp, and the final field commit.  `facing` is the facing flag
produced by the input phase; `c` is the collision pass result. -/
def finish_tick (s : GameSession) (facing : Bool) (c : CollState) : GameSession :=
  let acc := c.collectibles.foldl collect_step
    { collected := s.collected_objects, coins := s.coins_collected,
      score := s.current_score }
  let ps := derive_state c.on_ground c.vx c.vy
  let fell := qlt s.level.height c.new_y
  let lives := if fell then s.lives_remaining - 1 else s.lives_remaining
  let game_over := if fell && decide (lives ≤ 0) then true else s.is_game_over
  let respawn := fell && decide (0 < lives)
  let nx := if respawn then s.level.player_spawn_x else c.new_x
  let ny := if respawn then s.level.player_spawn_y else c.new_y
  let vx := if respawn then 0 else c.vx
  let vy := if respawn then 0 else c.vy
  let nx := qmax 0 (qmin nx (s.level.width - 24))
  { s with
    player_x := nx
    player_y := ny
    player_velocity_x := vx
    player_velocity_y := vy
    player_state := ps
    is_facing_right := facing
    is_on_ground := c.on_ground
    lives_remaining := lives
    is_game_over := game_over
    collected_objects := acc.collected
    coins_collected := acc.coins
    current_score := acc.score }

/-- Embeds `GamePhysics.update_player_physics` (game_service.py lines 346-476) as a
state transformer: one full physics tick. -/
def update_player_physics (config : GameConfig) (s : GameSession)
    (level_objects : List GameObject) (keys : String → Bool)
    (dtD dt10D : ℚ) : GameSession :=
  finish_tick s (pre_physics config keys dtD s).is_facing_right
    (collision_pass config keys dtD dt10D s level_objects)

/-- Runs `n` consecutive physics ticks with fixed config, objects, keys and time
step (the frame loop of `MarioGame.game_loop` restricted to the engine call). -/
def run_ticks (config : GameConfig) (level_objects : List GameObject)
    (keys : String → Bool) (dtD dt10D : ℚ) : Nat → GameSession → GameSession
  | 0, s => s
  | n + 1, s =>
      run_ticks config level_objects keys dtD dt10D n
        (update_player_physics config s level_objects keys dtD dt10D)

/-- Runs `n` consecutive physics ticks in which the object list, the key state and
the time step may vary from tick to tick (one list entry per tick). -/
def run_inputs (config : GameConfig) :
    List (List GameObject × (String → Bool) × ℚ × ℚ) → GameSession → GameSession
  | [], s => s
  | (objs, keys, dtD, dt10D) :: rest, s =>
      run_inputs config rest (update_player_physics config s objs keys dtD dt10D)

/-- The sublist of a collectible queue that the crediting loop of
game_service.py lines 438-442 actually credits, starting from the
already-collected id list `col`: each queued object is credited exactly when
its id has not been seen before (neither in `col` nor earlier in the queue). -/
def credited : List Int → List GameObject → List GameObject
  | _, [] => []
  | col, obj :: rest =>
    if col.contains obj.id then credited col rest
    else obj :: credited (col ++ [obj.id]) rest

/-- Modelled from the spec ("resolve the smaller-magnitude axis ...; if
`overlapX < overlapY` → horizontal resolution: push the player to the object's
left edge minus player width if moving rightward (`vx>0`), else to the
object's right edge; zero `vx`; else → vertical resolution: if falling
(`vy>0`), snap to the object's top minus player height, zero `vy`, set
`onGround=true`; else snap to the object's bottom edge, zero `vy`"): the
outcome claim C1 predicts for one solid object intersecting the player box. -/
def solid_resolution_per_spec (player_box : CollisionBox) (st : CollState)
    (obj : GameObject) : CollState :=
  let ov := player_box.get_overlap (obj_box obj)
  if qlt ov.1 ov.2 then
    if qlt 0 st.vx then { st with new_x := obj.x_position - 24, vx := 0 }
    else { st with new_x := obj.x_position + obj.width, vx := 0 }
  else
    if qlt 0 st.vy then
      { st with new_y := obj.y_position - 32, vy := 0, on_ground := true }
    else { st with new_y := obj.y_position + obj.height, vy := 0 }

/-! ## Concrete fixtures

`conf0` is the default `GameConfig` row of models.py (player_speed 5.0,
jump_strength 15.0, max_velocity_x 8.0, max_velocity_y 20.0, friction 0.8,
air_resistance 0.95).  `lvl0` is the default level geometry used by the
end-to-end claims: 2400×600, gravity 0.8, spawn (100, 400).  `plat0` is the
main ground platform of the default level: solid, at (0, 550), 800×50.
`dt60` and `dt60x10` are the exact rationals of `Decimal(str(1/60))` and
`Decimal(str((1/60)*10))`. -/

def conf0 : GameConfig :=
  { player_speed := 5, jump_strength := 15, max_velocity_x := 8,
    max_velocity_y := 20, friction := 8 / 10, air_resistance := 95 / 100 }

def lvl0 : GameLevel :=
  { width := 2400, height := 600, gravity := 8 / 10,
    player_spawn_x := 100, player_spawn_y := 400 }

def plat0 : GameObject :=
  { id := 1, x_position := 0, y_position := 550, width := 800, height := 50,
    is_solid := true, is_collectible := false, points_value := 0 }

def noKeys : String → Bool := fun _ => false

def dt60 : ℚ := 16666666666666666 / 1000000000000000000

def dt60x10 : ℚ := 16666666666666666 / 100000000000000000

/-- A session of the C6 fall scenario: fresh counters, spawn x = 100, level
`lvl0`, with the varying fields (vertical position and velocity, ground flag,
derived state) passed in. -/
def fall_session (y vy : ℚ) (ground : Bool) (ps : PlayerState) : GameSession :=
  { current_score := 0, coins_collected := 0, lives_remaining := 3,
    time_remaining := 400, player_x := 100, player_y := y,
    player_velocity_x := 0, player_velocity_y := vy, player_state := ps,
    is_facing_right := true, is_on_ground := ground, is_completed := false,
    is_game_over := false, collected_objects := [], level := lvl0 }

/-- The C6 start state: spawned at (100, 400), at rest, airborne. -/
def c6_t0 : GameSession := fall_session 400 0 false PlayerState.idle

/-- The C6 scenario after 50 ticks (still falling). -/
def c6_t50 : GameSession :=
  fall_session ((503541666666666666383333333333333339 : ℚ) / 1250000000000000000000000000000000)
    ((8333333333333333 : ℚ) / 12500000000000000) false PlayerState.falling

/-- The C6 scenario after 100 ticks (still falling). -/
def c6_t100 : GameSession :=
  fall_session ((257013888888888888327777777777777789 : ℚ) / 625000000000000000000000000000000)
    ((8333333333333333 : ℚ) / 6250000000000000) false PlayerState.falling

/-- The C6 scenario after 120 ticks: `y ≈ 416.133`, still airborne and
descending — nowhere near the platform top at 550. -/
def c6_t120 : GameSession :=
  fall_session ((650208333333333331316666666666666707 : ℚ) / 1562500000000000000000000000000000)
    ((24999999999999999 : ℚ) / 15625000000000000) false PlayerState.falling

/-- The C6 scenario after 150 ticks (still falling). -/
def c6_t150 : GameSession :=
  fall_session ((531458333333333330816666666666666717 : ℚ) / 1250000000000000000000000000000000)
    ((24999999999999999 : ℚ) / 12500000000000000) false PlayerState.falling

/-- The C6 scenario after 200 ticks (still falling). -/
def c6_t200 : GameSession :=
  fall_session ((138958333333333332216666666666666689 : ℚ) / 312500000000000000000000000000000)
    ((8333333333333333 : ℚ) / 3125000000000000) false PlayerState.falling

/-- The C6 scenario after 250 ticks (still falling). -/
def c6_t250 : GameSession :=
  fall_session ((117430555555555554161111111111111139 : ℚ) / 250000000000000000000000000000000)
    ((8333333333333333 : ℚ) / 2500000000000000) false PlayerState.falling

/-- The C6 scenario after 300 ticks (still falling). -/
def c6_t300 : GameSession :=
  fall_session ((312708333333333328316666666666666767 : ℚ) / 625000000000000000000000000000000)
    ((24999999999999999 : ℚ) / 6250000000000000) false PlayerState.falling

/-- The C6 scenario after 326 ticks: first contact tick — the player lands on
the platform, `y = 518`, `vy = 0`, `onGround = true`. -/
def c6_t326 : GameSession := fall_session 518 0 true PlayerState.idle

/-- The C6 scenario after 327 ticks: the resting player's `onGround` flag has
flipped back to false (the tick started grounded, so gravity was skipped, the
stationary box does not strictly intersect the platform, and the pass's
`onGround = false` reset survives); position and velocity are unchanged. -/
def c6_t327 : GameSession := fall_session 518 0 false PlayerState.falling

/-- The C7 start state: horizontal velocity 10, grounded, on the default
level with no supporting geometry listed. -/
def c7_t0 : GameSession :=
  { current_score := 0, coins_collected := 0, lives_remaining := 3,
    time_remaining := 400, player_x := 100, player_y := 400,
    player_velocity_x := 10, player_velocity_y := 0,
    player_state := PlayerState.idle, is_facing_right := true,
    is_on_ground := true, is_completed := false, is_game_over := false,
    collected_objects := [], level := lvl0 }

/-- The C1 counterexample state: resting intersect-course with a solid object
that is also an uncollected collectible.  Grounded with `vy = 1`, so gravity
is skipped and the tentative box sinks into the object. -/
def c1_t0 : GameSession :=
  { current_score := 0, coins_collected := 0, lives_remaining := 3,
    time_remaining := 400, player_x := 100, player_y := 517,
    player_velocity_x := 0, player_velocity_y := 1,
    player_state := PlayerState.idle, is_facing_right := true,
    is_on_ground := true, is_completed := false, is_game_over := false,
    collected_objects := [], level := lvl0 }

/-- A solid object that is simultaneously an uncollected collectible
(models.py allows any combination of `is_solid` and `is_collectible`). -/
def solid_coin : GameObject :=
  { id := 7, x_position := 90, y_position := 540, width := 100, height := 30,
    is_solid := true, is_collectible := true, points_value := 100 }

/-- The C5 counterexample state: a terminal session (`isGameOver = true`),
airborne at rest, on the default level. -/
def c5_t0 : GameSession :=
  { current_score := 0, coins_collected := 0, lives_remaining := 0,
    time_remaining := 400, player_x := 100, player_y := 400,
    player_velocity_x := 0, player_velocity_y := 0,
    player_state := PlayerState.dead, is_facing_right := true,
    is_on_ground := false, is_completed := false, is_game_over := true,
    collected_objects := [], level := lvl0 }

/-- The game-ending fall condition of one tick: the post-collision tentative
`y` exceeds the level height and the decremented life counter is ≤ 0
(game_service.py lines 456-461). -/
def fell_dead (config : GameConfig) (s : GameSession) (objs : List GameObject)
    (keys : String → Bool) (dtD dt10D : ℚ) : Bool :=
  qlt s.level.height (collision_pass config keys dtD dt10D s objs).new_y &&
    decide (s.lives_remaining - 1 ≤ 0)

/-- A session with both terminal flags cleared; used to state that the engine
computes every non-flag field without reading the flags. -/
def strip_flags (s : GameSession) : GameSession :=
  { s with is_completed := false, is_game_over := false }

/-- The C2 witness state: one life left, already below the bottom of the
level, airborne. -/
def c2_t0 : GameSession :=
  { current_score := 0, coins_collected := 0, lives_remaining := 1,
    time_remaining := 400, player_x := 100, player_y := 650,
    player_velocity_x := 0, player_velocity_y := 1,
    player_state := PlayerState.falling, is_facing_right := true,
    is_on_ground := false, is_completed := false, is_game_over := false,
    collected_objects := [], level := lvl0 }

/-- An ordinary coin: collectible, not solid (default level data,
game_service.py lines 177-277). -/
def coin7 : GameObject :=
  { id := 7, x_position := 100, y_position := 500, width := 24, height := 24,
    is_solid := false, is_collectible := true, points_value := 100 }

/-- The C3 witness state: `coin7` is already collected. -/
def c3_t0 : GameSession :=
  { current_score := 100, coins_collected := 1, lives_remaining := 3,
    time_remaining := 400, player_x := 100, player_y := 500,
    player_velocity_x := 0, player_velocity_y := 0,
    player_state := PlayerState.idle, is_facing_right := true,
    is_on_ground := false, is_completed := false, is_game_over := false,
    collected_objects := [7], level := lvl0 }

/-- A concrete collision-loop state for the C1 witness. -/
def st_c1 : CollState :=
  { new_x := 100, new_y := 519, vx := 0, vy := 1, on_ground := false,
    collectibles := [] }

/-- The C3 witness state for the solid-and-collectible case: the same
intersect-course as `c1_t0`, but `solid_coin` (id 7) is already collected,
so this tick resolves it as a solid instead of re-crediting it. -/
def c3_t1 : GameSession :=
  { current_score := 100, coins_collected := 1, lives_remaining := 3,
    time_remaining := 400, player_x := 100, player_y := 517,
    player_velocity_x := 0, player_velocity_y := 1,
    player_state := PlayerState.idle, is_facing_right := true,
    is_on_ground := true, is_completed := false, is_game_over := false,
    collected_objects := [7], level := lvl0 }

/-! ## Bridge lemmas between the executable comparators and the order on `ℚ` -/

attribute [local semireducible] Rat.mul Rat.add Rat.sub Rat.inv

theorem qlt_iff (a b : ℚ) : qlt a b = true ↔ a < b := Iff.rfl

theorem qlt_eq_false_iff (a b : ℚ) : qlt a b = false ↔ b ≤ a := by
  rw [← Bool.not_eq_true, not_iff_comm, qlt_iff, not_le]

theorem qmin_eq (a b : ℚ) : qmin a b = min a b := by
  rw [qmin, min_comm, min_def_lt]
  by_cases h : b < a
  · rw [if_pos h, if_pos (show b.blt a = true from h)]
  · rw [if_neg h, if_neg (show ¬b.blt a = true from h)]

theorem qmax_eq (a b : ℚ) : qmax a b = max a b := by
  rw [qmax, max_def_lt]
  by_cases h : a < b
  · rw [if_pos h, if_pos (show a.blt b = true from h)]
  · rw [if_neg h, if_neg (show ¬a.blt b = true from h)]

theorem qabs_eq (a : ℚ) : qabs a = |a| := by
  rw [qabs]
  by_cases h : a < 0
  · rw [if_pos (show a.blt 0 = true from h), abs_of_neg h]
  · rw [if_neg (show ¬a.blt 0 = true from h), abs_of_nonneg (not_lt.mp h)]

/-! ## Run composition and concrete chunked evaluations -/

theorem run_ticks_succ (config : GameConfig) (objs : List GameObject)
    (keys : String → Bool) (dtD dt10D : ℚ) (n : Nat) (s : GameSession) :
    run_ticks config objs keys dtD dt10D (n + 1) s
      = run_ticks config objs keys dtD dt10D n
          (update_player_physics config s objs keys dtD dt10D) := rfl

theorem run_ticks_add (config : GameConfig) (objs : List GameObject)
    (keys : String → Bool) (dtD dt10D : ℚ) (m n : Nat) (s : GameSession) :
    run_ticks config objs keys dtD dt10D (m + n) s
      = run_ticks config objs keys dtD dt10D n
          (run_ticks config objs keys dtD dt10D m s) := by
  induction m generalizing s with
  | zero =>
      rw [Nat.zero_add]
      rfl
  | succ m ih =>
      rw [Nat.succ_add, run_ticks_succ, run_ticks_succ, ih]

set_option maxRecDepth 30000 in
theorem c6_chunk_0_50 :
    run_ticks conf0 [plat0] noKeys dt60 dt60x10 50 c6_t0 = c6_t50 := by decide

set_option maxRecDepth 30000 in
theorem c6_chunk_50_100 :
    run_ticks conf0 [plat0] noKeys dt60 dt60x10 50 c6_t50 = c6_t100 := by decide

set_option maxRecDepth 30000 in
theorem c6_chunk_100_120 :
    run_ticks conf0 [plat0] noKeys dt60 dt60x10 20 c6_t100 = c6_t120 := by decide

set_option maxRecDepth 30000 in
theorem c6_chunk_100_150 :
    run_ticks conf0 [plat0] noKeys dt60 dt60x10 50 c6_t100 = c6_t150 := by decide

set_option maxRecDepth 30000 in
theorem c6_chunk_150_200 :
    run_ticks conf0 [plat0] noKeys dt60 dt60x10 50 c6_t150 = c6_t200 := by decide

set_option maxRecDepth 30000 in
theorem c6_chunk_200_250 :
    run_ticks conf0 [plat0] noKeys dt60 dt60x10 50 c6_t200 = c6_t250 := by decide

set_option maxRecDepth 30000 in
theorem c6_chunk_250_300 :
    run_ticks conf0 [plat0] noKeys dt60 dt60x10 50 c6_t250 = c6_t300 := by decide

set_option maxRecDepth 30000 in
theorem c6_chunk_300_326 :
    run_ticks conf0 [plat0] noKeys dt60 dt60x10 26 c6_t300 = c6_t326 := by decide

/-- At rest on the platform, a tick that begins grounded ends airborne-flagged
(position and velocity unchanged). -/
theorem c6_rest_step_g :
    update_player_physics conf0 c6_t326 [plat0] noKeys dt60 dt60x10 = c6_t327 := by
  decide

/-- At rest on the platform, a tick that begins airborne-flagged lands again:
the ground flag alternates while `y` and `vy` stay fixed. -/
theorem c6_rest_step_a :
    update_player_physics conf0 c6_t327 [plat0] noKeys dt60 dt60x10 = c6_t326 := by
  decide

theorem c6_eval_120 :
    run_ticks conf0 [plat0] noKeys dt60 dt60x10 120 c6_t0 = c6_t120 := by
  have h : (50 : Nat) + (50 + 20) = 120 := by norm_num
  rw [← h, run_ticks_add, run_ticks_add, c6_chunk_0_50, c6_chunk_50_100,
    c6_chunk_100_120]

theorem c6_eval_326 :
    run_ticks conf0 [plat0] noKeys dt60 dt60x10 326 c6_t0 = c6_t326 := by
  have h : (50 : Nat) + (50 + (50 + (50 + (50 + (50 + 26))))) = 326 := by norm_num
  rw [← h, run_ticks_add, run_ticks_add, run_ticks_add, run_ticks_add,
    run_ticks_add, run_ticks_add, c6_chunk_0_50, c6_chunk_50_100,
    c6_chunk_100_150, c6_chunk_150_200, c6_chunk_200_250, c6_chunk_250_300,
    c6_chunk_300_326]

/-! ## The collectible-crediting loop, characterised via `credited` -/

theorem contains_eq_true_iff (col : List Int) (i : Int) :
    col.contains i = true ↔ i ∈ col := by simp

theorem credited_cons (col : List Int) (o : GameObject) (rest : List GameObject) :
    credited col (o :: rest)
      = if col.contains o.id then credited col rest
        else o :: credited (col ++ [o.id]) rest := rfl

theorem foldl_collect (q : List GameObject) (col : List Int) (coins score : Int) :
    q.foldl collect_step { collected := col, coins := coins, score := score }
      = { collected := col ++ (credited col q).map (fun o => o.id),
          coins := coins + ((credited col q).length : Int),
          score := score + ((credited col q).map (fun o => o.points_value)).sum } := by
  induction q generalizing col coins score with
  | nil => simp [credited]
  | cons o rest ih =>
      rw [List.foldl_cons]
      by_cases h : col.contains o.id = true
      · have hstep : collect_step { collected := col, coins := coins, score := score } o
            = { collected := col, coins := coins, score := score } := by
          unfold collect_step
          exact if_pos h
        rw [hstep, ih, credited_cons, if_pos h]
      · have hstep : collect_step { collected := col, coins := coins, score := score } o
            = { collected := col ++ [o.id], coins := coins + 1,
                score := score + o.points_value } := by
          unfold collect_step
          exact if_neg h
        rw [hstep, ih, credited_cons, if_neg h]
        simp only [List.map_cons, List.length_cons, List.sum_cons,
          List.append_assoc, List.cons_append, List.nil_append,
          CollectAcc.mk.injEq]
        refine ⟨trivial, ?_, ?_⟩
        · push_cast
          ring
        · ring

/-- The ids credited by one pass are mutually distinct and all fresh with
respect to the starting collected list. -/
theorem credited_ids_nodup_fresh (q : List GameObject) (col : List Int) :
    ((credited col q).map (fun o => o.id)).Nodup ∧
      ∀ i ∈ (credited col q).map (fun o => o.id), i ∉ col := by
  induction q generalizing col with
  | nil => simp [credited]
  | cons o rest ih =>
      rw [credited_cons]
      by_cases h : col.contains o.id = true
      · rw [if_pos h]
        exact ih col
      · rw [if_neg h]
        have hfresh : o.id ∉ col := fun hmem => h ((contains_eq_true_iff col o.id).mpr hmem)
        have ih' := ih (col ++ [o.id])
        refine ⟨?_, ?_⟩
        · rw [List.map_cons, List.nodup_cons]
          refine ⟨fun hmem => ?_, ih'.1⟩
          exact ih'.2 o.id hmem
            (List.mem_append.mpr (Or.inr (List.mem_singleton.mpr rfl)))
        · rw [List.map_cons]
          intro i hi
          rcases List.mem_cons.mp hi with rfl | hi
          · exact hfresh
          · exact fun hcol => ih'.2 i hi (List.mem_append.mpr (Or.inl hcol))

/-- What one tick does to the credit counters: the collected list grows by the
ids credited from the collision pass's collectible queue, the coin counter by
their number, and the score by the sum of their point values. -/
theorem tick_credit (config : GameConfig) (s : GameSession)
    (objs : List GameObject) (keys : String → Bool) (dtD dt10D : ℚ) :
    (update_player_physics config s objs keys dtD dt10D).collected_objects
        = s.collected_objects ++
          (credited s.collected_objects
            (collision_pass config keys dtD dt10D s objs).collectibles).map
            (fun o => o.id) ∧
      (update_player_physics config s objs keys dtD dt10D).coins_collected
        = s.coins_collected +
          (((credited s.collected_objects
              (collision_pass config keys dtD dt10D s objs).collectibles).length : Int)) ∧
      (update_player_physics config s objs keys dtD dt10D).current_score
        = s.current_score +
          ((credited s.collected_objects
            (collision_pass config keys dtD dt10D s objs).collectibles).map
            (fun o => o.points_value)).sum := by
  have h := foldl_collect (collision_pass config keys dtD dt10D s objs).collectibles
    s.collected_objects s.coins_collected s.current_score
  exact ⟨congrArg CollectAcc.collected h, congrArg CollectAcc.coins h,
    congrArg CollectAcc.score h⟩

/-- Once at rest, every even number of further ticks returns to the grounded
rest state. -/
theorem c6_rest_even (k : Nat) :
    run_ticks conf0 [plat0] noKeys dt60 dt60x10 (2 * k) c6_t326 = c6_t326 := by
  induction k with
  | zero => rfl
  | succ k ih =>
      have h : 2 * (k + 1) = 2 * k + 2 := by ring
      rw [h, run_ticks_add, ih, run_ticks_succ, run_ticks_succ, c6_rest_step_g,
        c6_rest_step_a]
      rfl

/-! ## The engine never reads the terminal flags -/

theorem pre_physics_flags (config : GameConfig) (keys : String → Bool)
    (dtD : ℚ) (s : GameSession) (c g : Bool) :
    pre_physics config keys dtD { s with is_completed := c, is_game_over := g }
      = { pre_physics config keys dtD s with
          is_completed := c, is_game_over := g } := by
  simp only [pre_physics, horiz_vel, jump_step, gravity_step]
  split_ifs <;> rfl

theorem collision_pass_flags (config : GameConfig) (keys : String → Bool)
    (dtD dt10D : ℚ) (s : GameSession) (objs : List GameObject) (c g : Bool) :
    collision_pass config keys dtD dt10D
        { s with is_completed := c, is_game_over := g } objs
      = collision_pass config keys dtD dt10D s objs := by
  simp only [collision_pass, pre_physics_flags]

theorem strip_finish_flags (s : GameSession) (facing : Bool) (cs : CollState)
    (c g : Bool) :
    strip_flags (finish_tick { s with is_completed := c, is_game_over := g }
        facing cs)
      = strip_flags (finish_tick s facing cs) := by
  simp only [finish_tick, strip_flags]

theorem game_over_formula (f g : Bool) (a b : Int) :
    (if f && decide ((if f then a else b) ≤ 0) then true else g)
      = (g || (f && decide (a ≤ 0))) := by
  cases f
  · simp
  · cases hd : decide (a ≤ 0) <;> simp [hd]

/-! ## Claim theorems -/

/-- C9: `intersects` uses half-open interval semantics — it is true exactly
when `a.x < b.x + b.width`, `a.x + a.width > b.x`, `a.y < b.y + b.height`
and `a.y + a.height > b.y`; in particular two boxes sharing only an edge
(`a.x + a.width = b.x`) do not intersect. -/
theorem intersects_half_open (a b : CollisionBox) :
    (a.intersects b = true ↔
      a.x < b.x + b.width ∧ a.x + a.width > b.x ∧
        a.y < b.y + b.height ∧ a.y + a.height > b.y) ∧
    (a.x + a.width = b.x → a.intersects b = false) := by
  constructor
  · simp [CollisionBox.intersects, Bool.and_eq_true, qlt_iff, gt_iff_lt,
      and_assoc]
  · intro h
    have h2 : qlt b.x (a.x + a.width) = false := by
      rw [h]
      exact (qlt_eq_false_iff _ _).mpr le_rfl
    simp [CollisionBox.intersects, h2]

/-- Witness for C9 at concrete boxes: a 50×50 box whose right edge sits
exactly on another box's left edge does not intersect it. -/
theorem intersects_half_open_witness :
    CollisionBox.intersects ⟨0, 0, 50, 50⟩ ⟨50, 0, 50, 50⟩ = false :=
  (intersects_half_open ⟨0, 0, 50, 50⟩ ⟨50, 0, 50, 50⟩).2 (by norm_num)

/-- C4: after every tick the returned horizontal position lies in
`[0, level.width − 24]` (for any level at least as wide as the player),
because the clamp is applied unconditionally after collision resolution and
respawn. -/
theorem player_x_clamped (config : GameConfig) (s : GameSession)
    (objs : List GameObject) (keys : String → Bool) (dtD dt10D : ℚ)
    (hw : 24 ≤ s.level.width) :
    0 ≤ (update_player_physics config s objs keys dtD dt10D).player_x ∧
      (update_player_physics config s objs keys dtD dt10D).player_x
        ≤ s.level.width - 24 := by
  obtain ⟨v, hv⟩ :
      ∃ v, (update_player_physics config s objs keys dtD dt10D).player_x
        = qmax 0 (qmin v (s.level.width - 24)) := ⟨_, rfl⟩
  rw [hv, qmax_eq, qmin_eq]
  constructor
  · exact le_max_left 0 _
  · exact max_le (by linarith) (min_le_right _ _)

/-- Witness for C4 at a concrete tick on the default 2400-wide level. -/
theorem player_x_clamped_witness :
    0 ≤ (update_player_physics conf0 c6_t0 [plat0] noKeys dt60 dt60x10).player_x ∧
      (update_player_physics conf0 c6_t0 [plat0] noKeys dt60 dt60x10).player_x
        ≤ c6_t0.level.width - 24 :=
  player_x_clamped conf0 c6_t0 [plat0] noKeys dt60 dt60x10 (by decide)

/-- C8: the engine treats the terminal flags as one-way latches — it never
clears `isGameOver` (true in, true out) and never writes `isCompleted` at
all; completion is decided by the external driver. -/
theorem terminal_flags_latch (config : GameConfig) (s : GameSession)
    (objs : List GameObject) (keys : String → Bool) (dtD dt10D : ℚ) :
    (update_player_physics config s objs keys dtD dt10D).is_completed
        = s.is_completed ∧
      (s.is_game_over = true →
        (update_player_physics config s objs keys dtD dt10D).is_game_over
          = true) := by
  refine ⟨rfl, fun h => ?_⟩
  have hgen : ∀ (c b : Bool), b = true → (if c then true else b) = true := by
    intro c b hb
    cases c <;> simp [hb]
  exact hgen _ _ h

/-- Witness for C8: a tick on an already-game-over session keeps the flag. -/
theorem terminal_flags_latch_witness :
    (update_player_physics conf0 c5_t0 [] noKeys dt60 dt60x10).is_game_over
      = true :=
  (terminal_flags_latch conf0 c5_t0 [] noKeys dt60 dt60x10).2 rfl

/-- C10: the engine never touches `time_remaining`, and `coins_collected` and
`current_score` change exactly by the collectible credit of the tick — the
number of newly credited collectibles and the sum of their point values. -/
theorem frame_effect_of_tick (config : GameConfig) (s : GameSession)
    (objs : List GameObject) (keys : String → Bool) (dtD dt10D : ℚ) :
    (update_player_physics config s objs keys dtD dt10D).time_remaining
        = s.time_remaining ∧
      (update_player_physics config s objs keys dtD dt10D).coins_collected
        = s.coins_collected +
          (((credited s.collected_objects
              (collision_pass config keys dtD dt10D s objs).collectibles).length : Int)) ∧
      (update_player_physics config s objs keys dtD dt10D).current_score
        = s.current_score +
          ((credited s.collected_objects
            (collision_pass config keys dtD dt10D s objs).collectibles).map
            (fun o => o.points_value)).sum :=
  ⟨rfl, (tick_credit config s objs keys dtD dt10D).2.1,
    (tick_credit config s objs keys dtD dt10D).2.2⟩

/-- Counterexample to C7 as stated: from `vx = 10`, `onGround = true`,
friction 0.8, three engine ticks with no input leave `vx = 7.22`, which is
not below 6.0 — the engine recomputes `onGround` every tick, so friction
only applies to the first tick and air resistance (0.95) to the rest. -/
theorem friction_three_ticks_final_not_below_six :
    (run_ticks conf0 [] noKeys dt60 dt60x10 3 c7_t0).player_velocity_x
        = 361 / 50 ∧
      ¬ (run_ticks conf0 [] noKeys dt60 dt60x10 3 c7_t0).player_velocity_x
          < 6 := by
  decide

/-- C7 (amended): the three no-input ticks from `vx = 10`, `onGround = true`
produce the strictly decreasing, strictly positive sequence
`8 > 7.6 > 7.22`; the final value is below 8 but not below 6, since only the
first tick is a friction tick. -/
theorem friction_three_ticks_decreasing :
    (run_ticks conf0 [] noKeys dt60 dt60x10 1 c7_t0).player_velocity_x = 8 ∧
    (run_ticks conf0 [] noKeys dt60 dt60x10 2 c7_t0).player_velocity_x = 38 / 5 ∧
    (run_ticks conf0 [] noKeys dt60 dt60x10 3 c7_t0).player_velocity_x = 361 / 50 ∧
    (run_ticks conf0 [] noKeys dt60 dt60x10 1 c7_t0).player_velocity_x
      < c7_t0.player_velocity_x ∧
    (run_ticks conf0 [] noKeys dt60 dt60x10 2 c7_t0).player_velocity_x
      < (run_ticks conf0 [] noKeys dt60 dt60x10 1 c7_t0).player_velocity_x ∧
    (run_ticks conf0 [] noKeys dt60 dt60x10 3 c7_t0).player_velocity_x
      < (run_ticks conf0 [] noKeys dt60 dt60x10 2 c7_t0).player_velocity_x ∧
    0 < (run_ticks conf0 [] noKeys dt60 dt60x10 3 c7_t0).player_velocity_x ∧
    (run_ticks conf0 [] noKeys dt60 dt60x10 3 c7_t0).player_velocity_x < 8 := by
  decide

/-- Counterexample to C5 as stated: a session with `isGameOver = true` is not
returned unchanged — one tick still applies gravity to the airborne player,
so the returned velocity and position differ from the input's. -/
theorem terminal_tick_not_noop :
    c5_t0.is_game_over = true ∧
      update_player_physics conf0 c5_t0 [] noKeys dt60 dt60x10 ≠ c5_t0 := by
  decide

/-- C5 (amended): the engine does not special-case terminal sessions — it
never reads the terminal flags at all.  Changing `isCompleted`/`isGameOver`
on the input changes nothing else in the output: every non-flag field is
computed as for the flag-free session, `isCompleted` passes through, and
`isGameOver` is the input flag OR-ed with this tick's game-ending fall. -/
theorem engine_ignores_terminal_flags (config : GameConfig) (s : GameSession)
    (objs : List GameObject) (keys : String → Bool) (dtD dt10D : ℚ)
    (c g : Bool) :
    strip_flags
        (update_player_physics config
          { s with is_completed := c, is_game_over := g } objs keys dtD dt10D)
        = strip_flags (update_player_physics config s objs keys dtD dt10D) ∧
      (update_player_physics config
          { s with is_completed := c, is_game_over := g } objs keys
          dtD dt10D).is_completed = c ∧
      (update_player_physics config
          { s with is_completed := c, is_game_over := g } objs keys
          dtD dt10D).is_game_over
        = (g || fell_dead config s objs keys dtD dt10D) := by
  refine ⟨?_, rfl, ?_⟩
  · show strip_flags
        (finish_tick { s with is_completed := c, is_game_over := g }
          (pre_physics config keys dtD
            { s with is_completed := c, is_game_over := g }).is_facing_right
          (collision_pass config keys dtD dt10D
            { s with is_completed := c, is_game_over := g } objs))
      = strip_flags
        (finish_tick s (pre_physics config keys dtD s).is_facing_right
          (collision_pass config keys dtD dt10D s objs))
    rw [collision_pass_flags, pre_physics_flags]
    exact strip_finish_flags s _ _ c g
  · show (finish_tick { s with is_completed := c, is_game_over := g }
          (pre_physics config keys dtD
            { s with is_completed := c, is_game_over := g }).is_facing_right
          (collision_pass config keys dtD dt10D
            { s with is_completed := c, is_game_over := g } objs)).is_game_over
      = (g || fell_dead config s objs keys dtD dt10D)
    rw [collision_pass_flags]
    show (if qlt s.level.height
            (collision_pass config keys dtD dt10D s objs).new_y &&
          decide ((if qlt s.level.height
                (collision_pass config keys dtD dt10D s objs).new_y
              then s.lives_remaining - 1 else s.lives_remaining) ≤ 0)
        then true else g)
      = (g || fell_dead config s objs keys dtD dt10D)
    rw [fell_dead]
    exact game_over_formula _ g _ _

/-- Counterexample to C1 as stated: a solid object that is also an uncollected
collectible intersects the tentative player box, yet the engine does not
resolve it as a solid — it queues it as a collectible (`coinsCollected`
increments) and leaves position, velocity and ground flag untouched, instead
of the claimed vertical snap to `540 − 32 = 508` with `vy = 0`,
`onGround = true`.  (Time step 0.1: `dtD = 1/10`, `dt10D = 1`.) -/
theorem solid_collectible_not_resolved :
    solid_coin.is_solid = true ∧
      CollisionBox.intersects ⟨100, 518, 24, 32⟩ (obj_box solid_coin) = true ∧
      (update_player_physics conf0 c1_t0 [solid_coin] noKeys (1/10) 1).player_y
        = 518 ∧
      (update_player_physics conf0 c1_t0 [solid_coin] noKeys
        (1/10) 1).player_velocity_y = 1 ∧
      (update_player_physics conf0 c1_t0 [solid_coin] noKeys
        (1/10) 1).is_on_ground = false ∧
      (update_player_physics conf0 c1_t0 [solid_coin] noKeys
        (1/10) 1).coins_collected = 1 ∧
      ¬ (update_player_physics conf0 c1_t0 [solid_coin] noKeys
          (1/10) 1).player_y = solid_coin.y_position - 32 := by
  decide

/-- C1 (amended): for every solid object that the collision loop does not
queue as a collectible (it is not collectible, or its id is already
collected) and whose box intersects the player's tentative box, the loop body
resolves exactly per the claim: on the smaller-overlap axis, pushing out
horizontally (left edge − 24 when `vx > 0`, else right edge, zeroing `vx`) or
vertically (top − 32 with `vy := 0`, `onGround := true` when `vy > 0`, else
bottom edge with `vy := 0`). -/
theorem solid_resolution_when_not_queued (collected : List Int)
    (player_box : CollisionBox) (st : CollState) (obj : GameObject)
    (hint : player_box.intersects (obj_box obj) = true)
    (hsolid : obj.is_solid = true)
    (hq : obj.is_collectible = false ∨ collected.contains obj.id = true) :
    collide_step collected player_box st obj
      = solid_resolution_per_spec player_box st obj := by
  unfold collide_step solid_resolution_per_spec
  rw [if_pos hint]
  rcases hq with hc | hc
  · rw [hc]
    simp [hsolid]
  · rw [hc]
    simp [hsolid]

/-- Witness for the amended C1: the loop body on the main ground platform
(solid, not collectible) from a concrete falling state equals the
spec-predicted resolution. -/
theorem solid_resolution_when_not_queued_witness :
    collide_step [] ⟨100, 519, 24, 32⟩ st_c1 plat0
      = solid_resolution_per_spec ⟨100, 519, 24, 32⟩ st_c1 plat0 :=
  solid_resolution_when_not_queued [] ⟨100, 519, 24, 32⟩ st_c1 plat0
    (by decide) (by decide) (Or.inl (by decide))

/-- C2: when the post-collision tentative `y` exceeds `level.height`, the tick
decrements `livesRemaining`; if the decremented value is ≤ 0 it sets
`isGameOver` and leaves the position as computed (`y` untouched, `x` only
clamped — no respawn); otherwise it resets the position to the level spawn
point (exactly, whenever the spawn is inside the horizontal bounds) and
zeroes both velocity components. -/
theorem fall_out_of_world (config : GameConfig) (s : GameSession)
    (objs : List GameObject) (keys : String → Bool) (dtD dt10D : ℚ)
    (hfall : qlt s.level.height
        (collision_pass config keys dtD dt10D s objs).new_y = true) :
    (update_player_physics config s objs keys dtD dt10D).lives_remaining
        = s.lives_remaining - 1 ∧
      (s.lives_remaining - 1 ≤ 0 →
        (update_player_physics config s objs keys dtD dt10D).is_game_over
            = true ∧
          (update_player_physics config s objs keys dtD dt10D).player_y
            = (collision_pass config keys dtD dt10D s objs).new_y ∧
          (update_player_physics config s objs keys dtD dt10D).player_x
            = qmax 0 (qmin (collision_pass config keys dtD dt10D s objs).new_x
                (s.level.width - 24)) ∧
          (update_player_physics config s objs keys dtD dt10D).player_velocity_x
            = (collision_pass config keys dtD dt10D s objs).vx ∧
          (update_player_physics config s objs keys dtD dt10D).player_velocity_y
            = (collision_pass config keys dtD dt10D s objs).vy) ∧
      (0 < s.lives_remaining - 1 →
        (update_player_physics config s objs keys dtD dt10D).is_game_over
            = s.is_game_over ∧
          (update_player_physics config s objs keys dtD dt10D).player_y
            = s.level.player_spawn_y ∧
          (update_player_physics config s objs keys dtD dt10D).player_x
            = qmax 0 (qmin s.level.player_spawn_x (s.level.width - 24)) ∧
          (0 ≤ s.level.player_spawn_x →
            s.level.player_spawn_x ≤ s.level.width - 24 →
            (update_player_physics config s objs keys dtD dt10D).player_x
              = s.level.player_spawn_x) ∧
          (update_player_physics config s objs keys dtD dt10D).player_velocity_x
            = 0 ∧
          (update_player_physics config s objs keys dtD dt10D).player_velocity_y
            = 0) := by
  refine ⟨?_, fun hd => ?_, fun hd => ?_⟩
  · show (if qlt s.level.height
          (collision_pass config keys dtD dt10D s objs).new_y
        then s.lives_remaining - 1 else s.lives_remaining)
      = s.lives_remaining - 1
    rw [if_pos hfall]
  · refine ⟨?_, ?_, ?_, ?_, ?_⟩
    · show (if (qlt s.level.height
              (collision_pass config keys dtD dt10D s objs).new_y &&
            decide ((if qlt s.level.height
                  (collision_pass config keys dtD dt10D s objs).new_y
                then s.lives_remaining - 1 else s.lives_remaining) ≤ 0))
          then true else s.is_game_over) = true
      rw [hfall]
      simp [hd]
    · show (if (qlt s.level.height
              (collision_pass config keys dtD dt10D s objs).new_y &&
            decide (0 < (if qlt s.level.height
                  (collision_pass config keys dtD dt10D s objs).new_y
                then s.lives_remaining - 1 else s.lives_remaining)))
          then s.level.player_spawn_y
          else (collision_pass config keys dtD dt10D s objs).new_y)
        = (collision_pass config keys dtD dt10D s objs).new_y
      have hno : ¬ (0 < s.lives_remaining - 1) := by omega
      rw [hfall]
      simp [hno]
    · show qmax 0 (qmin
          (if (qlt s.level.height
              (collision_pass config keys dtD dt10D s objs).new_y &&
            decide (0 < (if qlt s.level.height
                  (collision_pass config keys dtD dt10D s objs).new_y
                then s.lives_remaining - 1 else s.lives_remaining)))
            then s.level.player_spawn_x
            else (collision_pass config keys dtD dt10D s objs).new_x)
          (s.level.width - 24))
        = qmax 0 (qmin (collision_pass config keys dtD dt10D s objs).new_x
            (s.level.width - 24))
      have hno : ¬ (0 < s.lives_remaining - 1) := by omega
      rw [hfall]
      simp [hno]
    · show (if (qlt s.level.height
              (collision_pass config keys dtD dt10D s objs).new_y &&
            decide (0 < (if qlt s.level.height
                  (collision_pass config keys dtD dt10D s objs).new_y
                then s.lives_remaining - 1 else s.lives_remaining)))
          then 0 else (collision_pass config keys dtD dt10D s objs).vx)
        = (collision_pass config keys dtD dt10D s objs).vx
      have hno : ¬ (0 < s.lives_remaining - 1) := by omega
      rw [hfall]
      simp [hno]
    · show (if (qlt s.level.height
              (collision_pass config keys dtD dt10D s objs).new_y &&
            decide (0 < (if qlt s.level.height
                  (collision_pass config keys dtD dt10D s objs).new_y
                then s.lives_remaining - 1 else s.lives_remaining)))
          then 0 else (collision_pass config keys dtD dt10D s objs).vy)
        = (collision_pass config keys dtD dt10D s objs).vy
      have hno : ¬ (0 < s.lives_remaining - 1) := by omega
      rw [hfall]
      simp [hno]
  · have hno : ¬ (s.lives_remaining - 1 ≤ 0) := by omega
    have hx : (update_player_physics config s objs keys dtD dt10D).player_x
        = qmax 0 (qmin s.level.player_spawn_x (s.level.width - 24)) := by
      show qmax 0 (qmin
          (if (qlt s.level.height
              (collision_pass config keys dtD dt10D s objs).new_y &&
            decide (0 < (if qlt s.level.height
                  (collision_pass config keys dtD dt10D s objs).new_y
                then s.lives_remaining - 1 else s.lives_remaining)))
            then s.level.player_spawn_x
            else (collision_pass config keys dtD dt10D s objs).new_x)
          (s.level.width - 24))
        = qmax 0 (qmin s.level.player_spawn_x (s.level.width - 24))
      rw [hfall]
      simp [hd]
    refine ⟨?_, ?_, hx, fun h0 h1 => ?_, ?_, ?_⟩
    · show (if (qlt s.level.height
              (collision_pass config keys dtD dt10D s objs).new_y &&
            decide ((if qlt s.level.height
                  (collision_pass config keys dtD dt10D s objs).new_y
                then s.lives_remaining - 1 else s.lives_remaining) ≤ 0))
          then true else s.is_game_over) = s.is_game_over
      rw [hfall]
      simp [hno]
    · show (if (qlt s.level.height
              (collision_pass config keys dtD dt10D s objs).new_y &&
            decide (0 < (if qlt s.level.height
                  (collision_pass config keys dtD dt10D s objs).new_y
                then s.lives_remaining - 1 else s.lives_remaining)))
          then s.level.player_spawn_y
          else (collision_pass config keys dtD dt10D s objs).new_y)
        = s.level.player_spawn_y
      rw [hfall]
      simp [hd]
    · rw [hx, qmax_eq, qmin_eq, min_eq_left h1, max_eq_right h0]
    · show (if (qlt s.level.height
              (collision_pass config keys dtD dt10D s objs).new_y &&
            decide (0 < (if qlt s.level.height
                  (collision_pass config keys dtD dt10D s objs).new_y
                then s.lives_remaining - 1 else s.lives_remaining)))
          then 0 else (collision_pass config keys dtD dt10D s objs).vx) = 0
      rw [hfall]
      simp [hd]
    · show (if (qlt s.level.height
              (collision_pass config keys dtD dt10D s objs).new_y &&
            decide (0 < (if qlt s.level.height
                  (collision_pass config keys dtD dt10D s objs).new_y
                then s.lives_remaining - 1 else s.lives_remaining)))
          then 0 else (collision_pass config keys dtD dt10D s objs).vy) = 0
      rw [hfall]
      simp [hd]

/-- Witness for C2 at a concrete game-ending fall: one life left, below the
level bottom — lives drop to 0 and `isGameOver` is set. -/
theorem fall_out_of_world_witness :
    (update_player_physics conf0 c2_t0 [] noKeys (1/10) 1).lives_remaining
        = c2_t0.lives_remaining - 1 ∧
      (update_player_physics conf0 c2_t0 [] noKeys (1/10) 1).is_game_over
        = true :=
  ⟨(fall_out_of_world conf0 c2_t0 [] noKeys (1/10) 1 (by decide)).1,
    ((fall_out_of_world conf0 c2_t0 [] noKeys (1/10) 1 (by decide)).2.1
      (by decide)).1⟩

theorem run_inputs_cons (config : GameConfig) (objs : List GameObject)
    (keys : String → Bool) (dtD dt10D : ℚ)
    (rest : List (List GameObject × (String → Bool) × ℚ × ℚ))
    (s : GameSession) :
    run_inputs config ((objs, keys, dtD, dt10D) :: rest) s
      = run_inputs config rest
          (update_player_physics config s objs keys dtD dt10D) := rfl

/-- A tick ignores an already-collected, non-solid collectible entirely:
dropping it from the object list does not change the result. -/
theorem collected_tick_noop (config : GameConfig) (s : GameSession)
    (obj : GameObject) (objs1 objs2 : List GameObject) (keys : String → Bool)
    (dtD dt10D : ℚ) (hc : obj.is_collectible = true)
    (hs : obj.is_solid = false)
    (hm : s.collected_objects.contains obj.id = true) :
    update_player_physics config s (objs1 ++ obj :: objs2) keys dtD dt10D
      = update_player_physics config s (objs1 ++ objs2) keys dtD dt10D := by
  have hstep : ∀ box st, collide_step s.collected_objects box st obj = st := by
    intro box st
    have hm2 : obj.id ∈ s.collected_objects :=
      (contains_eq_true_iff s.collected_objects obj.id).mp hm
    unfold collide_step
    simp [hc, hs, hm2]
  have hpass : collision_pass config keys dtD dt10D s (objs1 ++ obj :: objs2)
      = collision_pass config keys dtD dt10D s (objs1 ++ objs2) := by
    unfold collision_pass
    rw [List.foldl_append, List.foldl_cons, hstep, ← List.foldl_append]
  unfold update_player_physics
  rw [hpass]

/-- The collectible queue contribution of one loop iteration: the object is
appended exactly when it intersects the fixed player box, is collectible and
is not yet collected — independently of the working position/velocity state
(solid resolution never touches the queue). -/
theorem collide_step_collectibles (collected : List Int)
    (player_box : CollisionBox) (st : CollState) (obj : GameObject) :
    (collide_step collected player_box st obj).collectibles
      = st.collectibles ++
        (if player_box.intersects (obj_box obj) &&
            (obj.is_collectible && !(collected.contains obj.id))
          then [obj] else []) := by
  by_cases h1 : player_box.intersects (obj_box obj) = true
  · by_cases h2 : (obj.is_collectible && !(collected.contains obj.id)) = true
    · have hcond : (player_box.intersects (obj_box obj) &&
          (obj.is_collectible && !(collected.contains obj.id))) = true := by
        rw [h1, h2]
        rfl
      rw [if_pos hcond]
      unfold collide_step
      rw [if_pos h1, if_pos h2]
    · have h2f : (obj.is_collectible && !(collected.contains obj.id)) = false := by
        cases hb : (obj.is_collectible && !(collected.contains obj.id))
        · rfl
        · exact absurd hb h2
      have hcond : ¬ ((player_box.intersects (obj_box obj) &&
          (obj.is_collectible && !(collected.contains obj.id))) = true) := by
        rw [h2f, Bool.and_false]
        exact Bool.false_ne_true
      rw [if_neg hcond, List.append_nil]
      unfold collide_step
      rw [if_pos h1, if_neg h2]
      by_cases h3 : obj.is_solid = true
      · rw [if_pos h3]
        simp only [apply_ite CollState.collectibles, ite_self]
      · rw [if_neg h3]
  · have h1f : player_box.intersects (obj_box obj) = false := by
      cases hb : player_box.intersects (obj_box obj)
      · rfl
      · exact absurd hb h1
    have hcond : ¬ ((player_box.intersects (obj_box obj) &&
        (obj.is_collectible && !(collected.contains obj.id))) = true) := by
      rw [h1f, Bool.false_and]
      exact Bool.false_ne_true
    rw [if_neg hcond, List.append_nil]
    unfold collide_step
    rw [if_neg h1]

/-- The queue produced by the collision fold depends only on the incoming
queue, not on the working position/velocity/ground state. -/
theorem foldl_collectibles_congr (collected : List Int)
    (player_box : CollisionBox) (l : List GameObject) (st st' : CollState)
    (h : st.collectibles = st'.collectibles) :
    (l.foldl (collide_step collected player_box) st).collectibles
      = (l.foldl (collide_step collected player_box) st').collectibles := by
  induction l generalizing st st' with
  | nil => exact h
  | cons o rest ih =>
      rw [List.foldl_cons, List.foldl_cons]
      exact ih _ _
        (by rw [collide_step_collectibles, collide_step_collectibles, h])

/-- Dropping an already-collected collectible (solid or not) from the object
list leaves the collision pass's collectible queue unchanged: such an object
is never queued again. -/
theorem collision_pass_drop_collected (config : GameConfig) (s : GameSession)
    (obj : GameObject) (objs1 objs2 : List GameObject)
    (keys : String → Bool) (dtD dt10D : ℚ)
    (hc : obj.is_collectible = true)
    (hm : s.collected_objects.contains obj.id = true) :
    (collision_pass config keys dtD dt10D s
        (objs1 ++ obj :: objs2)).collectibles
      = (collision_pass config keys dtD dt10D s
          (objs1 ++ objs2)).collectibles := by
  unfold collision_pass
  rw [List.foldl_append, List.foldl_append, List.foldl_cons]
  apply foldl_collectibles_congr
  rw [collide_step_collectibles]
  simp [hc, hm]
  exact fun _ => (contains_eq_true_iff _ _).mp hm

/-- A further intersection with an already-collected collectible — whether or
not it is also solid — changes neither the collected-id list nor
`coins_collected` nor `current_score`: the tick credits exactly what it
credits without that object. -/
theorem collected_tick_no_recredit (config : GameConfig) (s : GameSession)
    (obj : GameObject) (objs1 objs2 : List GameObject)
    (keys : String → Bool) (dtD dt10D : ℚ)
    (hc : obj.is_collectible = true)
    (hm : s.collected_objects.contains obj.id = true) :
    (update_player_physics config s (objs1 ++ obj :: objs2) keys
        dtD dt10D).collected_objects
      = (update_player_physics config s (objs1 ++ objs2) keys
          dtD dt10D).collected_objects ∧
    (update_player_physics config s (objs1 ++ obj :: objs2) keys
        dtD dt10D).coins_collected
      = (update_player_physics config s (objs1 ++ objs2) keys
          dtD dt10D).coins_collected ∧
    (update_player_physics config s (objs1 ++ obj :: objs2) keys
        dtD dt10D).current_score
      = (update_player_physics config s (objs1 ++ objs2) keys
          dtD dt10D).current_score := by
  have hq := collision_pass_drop_collected config s obj objs1 objs2 keys
    dtD dt10D hc hm
  have h1 := tick_credit config s (objs1 ++ obj :: objs2) keys dtD dt10D
  have h2 := tick_credit config s (objs1 ++ objs2) keys dtD dt10D
  refine ⟨?_, ?_, ?_⟩
  · rw [h1.1, h2.1, hq]
  · rw [h1.2.1, h2.2.1, hq]
  · rw [h1.2.2, h2.2.2, hq]

/-- Over any whole tick sequence there is a single list of credited objects:
the collected-id list grows exactly by their ids (still duplicate-free),
`coins_collected` by their count, and `current_score` by the sum of their
point values — so each id is added, counted and scored exactly once. -/
theorem run_credit_exactly_once (config : GameConfig)
    (L : List (List GameObject × (String → Bool) × ℚ × ℚ)) (s : GameSession)
    (hnd : s.collected_objects.Nodup) :
    ∃ creditedObjs : List GameObject,
      (run_inputs config L s).collected_objects
        = s.collected_objects ++ creditedObjs.map (fun o => o.id) ∧
      (run_inputs config L s).collected_objects.Nodup ∧
      (run_inputs config L s).coins_collected
        = s.coins_collected + (creditedObjs.length : Int) ∧
      (run_inputs config L s).current_score
        = s.current_score
          + (creditedObjs.map (fun o => o.points_value)).sum := by
  induction L generalizing s with
  | nil =>
      have h0 : run_inputs config [] s = s := rfl
      refine ⟨[], ?_, ?_, ?_, ?_⟩ <;> rw [h0] <;> simp [hnd]
  | cons entry rest ih =>
      obtain ⟨objs, keys, dtD, dt10D⟩ := entry
      have hcred := tick_credit config s objs keys dtD dt10D
      have hfr := credited_ids_nodup_fresh
        (collision_pass config keys dtD dt10D s objs).collectibles
        s.collected_objects
      have hnd1 : (update_player_physics config s objs keys
          dtD dt10D).collected_objects.Nodup := by
        rw [hcred.1, List.nodup_append]
        exact ⟨hnd, hfr.1, fun a ha hb => hfr.2 a hb ha⟩
      obtain ⟨c2, hcol2, hnd2, hcoins2, hscore2⟩ :=
        ih (update_player_physics config s objs keys dtD dt10D) hnd1
      rw [run_inputs_cons]
      refine ⟨credited s.collected_objects
        (collision_pass config keys dtD dt10D s objs).collectibles ++ c2,
        ?_, hnd2, ?_, ?_⟩
      · rw [hcol2, hcred.1, List.map_append, List.append_assoc]
      · rw [hcoins2, hcred.2.1, List.length_append]
        push_cast
        ring
      · rw [hscore2, hcred.2.2, List.map_append, List.sum_append]
        ring

/-- Across any sequence of ticks, the collected-id list only grows, stays
duplicate-free, and the coin counter advances in lockstep with its length. -/
theorem run_collect_invariant (config : GameConfig)
    (L : List (List GameObject × (String → Bool) × ℚ × ℚ)) (s : GameSession)
    (hnd : s.collected_objects.Nodup) :
    (run_inputs config L s).collected_objects.Nodup ∧
      s.collected_objects <+: (run_inputs config L s).collected_objects ∧
      (run_inputs config L s).coins_collected
        = s.coins_collected
          + ((run_inputs config L s).collected_objects.length : Int)
          - (s.collected_objects.length : Int) := by
  induction L generalizing s with
  | nil =>
      refine ⟨hnd, List.prefix_rfl, ?_⟩
      have h0 : run_inputs config [] s = s := rfl
      rw [h0]
      ring
  | cons entry rest ih =>
      obtain ⟨objs, keys, dtD, dt10D⟩ := entry
      have hcred := tick_credit config s objs keys dtD dt10D
      have hfr := credited_ids_nodup_fresh
        (collision_pass config keys dtD dt10D s objs).collectibles
        s.collected_objects
      have hnd1 : (update_player_physics config s objs keys
          dtD dt10D).collected_objects.Nodup := by
        rw [hcred.1, List.nodup_append]
        exact ⟨hnd, hfr.1, fun a ha hb => hfr.2 a hb ha⟩
      have ihall := ih (update_player_physics config s objs keys dtD dt10D) hnd1
      rw [run_inputs_cons]
      refine ⟨ihall.1, ?_, ?_⟩
      · exact List.IsPrefix.trans ⟨_, hcred.1.symm⟩ ihall.2.1
      · have hlen : (update_player_physics config s objs keys
            dtD dt10D).collected_objects.length
              = s.collected_objects.length
                + (credited s.collected_objects
                    ((collision_pass config keys dtD dt10D s objs).collectibles)).length := by
          rw [hcred.1, List.length_append, List.length_map]
        have hco := hcred.2.1
        have h1 := ihall.2.2
        omega

/-- C3: collectible credit is idempotent per object id.  First, once an
object's id is in `collectedObjectIds`, a further intersection in any later
tick changes neither `coinsCollected` nor `score` nor the collected list —
for every collectible, including one that is also solid (it then falls to
the solid branch and is resolved as geometry, never re-credited); when the
object is not solid the whole tick is byte-for-byte unaffected by it.
Second, over any whole session (any tick sequence, with per-tick object
lists, key states and time steps, starting duplicate-free) there is one list
of credited objects: each id is added to `collectedObjectIds`, counted in
`coinsCollected`, and scored (its `pointsValue` added) exactly once, no
matter how many ticks the player overlaps it. -/
theorem collectible_credit_idempotent :
    (∀ (config : GameConfig) (s : GameSession) (obj : GameObject)
        (objs1 objs2 : List GameObject) (keys : String → Bool) (dtD dt10D : ℚ),
        obj.is_collectible = true →
        s.collected_objects.contains obj.id = true →
        (update_player_physics config s (objs1 ++ obj :: objs2) keys
            dtD dt10D).collected_objects
          = (update_player_physics config s (objs1 ++ objs2) keys
              dtD dt10D).collected_objects ∧
        (update_player_physics config s (objs1 ++ obj :: objs2) keys
            dtD dt10D).coins_collected
          = (update_player_physics config s (objs1 ++ objs2) keys
              dtD dt10D).coins_collected ∧
        (update_player_physics config s (objs1 ++ obj :: objs2) keys
            dtD dt10D).current_score
          = (update_player_physics config s (objs1 ++ objs2) keys
              dtD dt10D).current_score) ∧
      (∀ (config : GameConfig) (s : GameSession) (obj : GameObject)
          (objs1 objs2 : List GameObject) (keys : String → Bool)
          (dtD dt10D : ℚ),
        obj.is_collectible = true → obj.is_solid = false →
        s.collected_objects.contains obj.id = true →
        update_player_physics config s (objs1 ++ obj :: objs2) keys dtD dt10D
          = update_player_physics config s (objs1 ++ objs2) keys dtD dt10D) ∧
      (∀ (config : GameConfig)
          (L : List (List GameObject × (String → Bool) × ℚ × ℚ))
          (s : GameSession), s.collected_objects.Nodup →
        ∃ creditedObjs : List GameObject,
          (run_inputs config L s).collected_objects
            = s.collected_objects ++ creditedObjs.map (fun o => o.id) ∧
          (run_inputs config L s).collected_objects.Nodup ∧
          (run_inputs config L s).coins_collected
            = s.coins_collected + (creditedObjs.length : Int) ∧
          (run_inputs config L s).current_score
            = s.current_score
              + (creditedObjs.map (fun o => o.points_value)).sum) :=
  ⟨fun config s obj objs1 objs2 keys dtD dt10D hc hm =>
      collected_tick_no_recredit config s obj objs1 objs2 keys dtD dt10D hc hm,
    fun config s obj objs1 objs2 keys dtD dt10D hc hs hm =>
      collected_tick_noop config s obj objs1 objs2 keys dtD dt10D hc hs hm,
    fun config L s hnd => run_credit_exactly_once config L s hnd⟩

/-- Witness for C3, exercising all three parts: a tick over a list containing
the already-collected solid collectible `solid_coin` credits exactly what it
credits without it; a tick over a list containing the already-collected
non-solid `coin7` equals the tick without it; and a concrete two-tick run
over `coin7` admits the exactly-once credited decomposition. -/
theorem collectible_credit_idempotent_witness :
    ((update_player_physics conf0 c3_t1 ([] ++ solid_coin :: []) noKeys
          (1/10) 1).collected_objects
        = (update_player_physics conf0 c3_t1 ([] ++ []) noKeys
            (1/10) 1).collected_objects ∧
      (update_player_physics conf0 c3_t1 ([] ++ solid_coin :: []) noKeys
          (1/10) 1).coins_collected
        = (update_player_physics conf0 c3_t1 ([] ++ []) noKeys
            (1/10) 1).coins_collected ∧
      (update_player_physics conf0 c3_t1 ([] ++ solid_coin :: []) noKeys
          (1/10) 1).current_score
        = (update_player_physics conf0 c3_t1 ([] ++ []) noKeys
            (1/10) 1).current_score) ∧
      (update_player_physics conf0 c3_t0 ([] ++ coin7 :: [plat0]) noKeys
          (1/10) 1
        = update_player_physics conf0 c3_t0 ([] ++ [plat0]) noKeys (1/10) 1) ∧
      (∃ creditedObjs : List GameObject,
        (run_inputs conf0 [([coin7], noKeys, 1/10, 1),
            ([coin7], noKeys, 1/10, 1)] c3_t0).collected_objects
          = c3_t0.collected_objects ++ creditedObjs.map (fun o => o.id) ∧
        (run_inputs conf0 [([coin7], noKeys, 1/10, 1),
            ([coin7], noKeys, 1/10, 1)] c3_t0).collected_objects.Nodup ∧
        (run_inputs conf0 [([coin7], noKeys, 1/10, 1),
            ([coin7], noKeys, 1/10, 1)] c3_t0).coins_collected
          = c3_t0.coins_collected + (creditedObjs.length : Int) ∧
        (run_inputs conf0 [([coin7], noKeys, 1/10, 1),
            ([coin7], noKeys, 1/10, 1)] c3_t0).current_score
          = c3_t0.current_score
            + (creditedObjs.map (fun o => o.points_value)).sum) :=
  ⟨collectible_credit_idempotent.1 conf0 c3_t1 solid_coin [] [] noKeys
      (1/10) 1 (by decide) (by decide),
    collectible_credit_idempotent.2.1 conf0 c3_t0 coin7 [] [plat0] noKeys
      (1/10) 1 (by decide) (by decide) (by decide),
    collectible_credit_idempotent.2.2 conf0
      [([coin7], noKeys, 1/10, 1), ([coin7], noKeys, 1/10, 1)] c3_t0
      (by decide)⟩

/-- Counterexample to C6 as stated: after exactly 120 no-input ticks from the
spawn the player has fallen only ≈ 16 px (integration scales motion by
`vy·dt·10` per tick), so it is still airborne around `y ≈ 416.13`, descending
— not resting on the platform at `y = 518` with `onGround = true`. -/
theorem e2e_120_ticks_still_falling :
    (run_ticks conf0 [plat0] noKeys dt60 dt60x10 120 c6_t0).is_on_ground
        = false ∧
      (run_ticks conf0 [plat0] noKeys dt60 dt60x10 120 c6_t0).player_velocity_y
        ≠ 0 ∧
      (run_ticks conf0 [plat0] noKeys dt60 dt60x10 120 c6_t0).player_y
        ≠ 550 - 32 ∧
      (run_ticks conf0 [plat0] noKeys dt60 dt60x10 120 c6_t0).player_y
        < 417 := by
  rw [c6_eval_120]
  refine ⟨rfl, by decide, by decide, ?_⟩
  rw [show (417 : ℚ) = 417 from rfl]
  exact (qlt_iff _ _).mp (by decide)

/-- C6 (amended): the fall does end at rest on the platform, but only at tick
326 — `y = 550 − 32 = 518`, `vy = 0`, `onGround = true` — and from then on
`y` and `vy` stay fixed while `onGround` alternates every tick (true after
each even number of further ticks, false after each odd number), because a
tick that starts grounded skips gravity and the stationary box no longer
strictly intersects the platform. -/
theorem e2e_at_rest_from_tick_326 :
    ((run_ticks conf0 [plat0] noKeys dt60 dt60x10 326 c6_t0).player_y
        = 550 - 32 ∧
      (run_ticks conf0 [plat0] noKeys dt60 dt60x10 326 c6_t0).player_velocity_y
        = 0 ∧
      (run_ticks conf0 [plat0] noKeys dt60 dt60x10 326 c6_t0).is_on_ground
        = true) ∧
      (∀ k : Nat, run_ticks conf0 [plat0] noKeys dt60 dt60x10 (326 + 2 * k)
          c6_t0 = c6_t326) ∧
      (∀ k : Nat, run_ticks conf0 [plat0] noKeys dt60 dt60x10 (326 + 2 * k + 1)
          c6_t0 = c6_t327) := by
  have heven : ∀ k : Nat, run_ticks conf0 [plat0] noKeys dt60 dt60x10
      (326 + 2 * k) c6_t0 = c6_t326 := by
    intro k
    rw [run_ticks_add, c6_eval_326, c6_rest_even]
  refine ⟨?_, heven, ?_⟩
  · rw [c6_eval_326]
    exact ⟨by decide, rfl, rfl⟩
  · intro k
    rw [run_ticks_add, heven k]
    exact c6_rest_step_g

end Mario
